import Mathlib

/-!
Verification of the Cancer module-registry and API-gateway core.

The registry backend (`src/modules/module-market/backend/server.js`) and the
gateway (`src/api-gateway/index.js`) are embedded shallowly: filesystem reads
and network fetches become explicit input values, each HTTP handler becomes a
pure function from the cached snapshot (and query inputs) to its response.
JavaScript truthiness on optional string/bool fields is modelled explicitly.
-/

deriving instance DecidableEq for Except

/-- The `backend` block of a descriptor: `url` and `prefix`, both optional
strings in the JSON.  `pfx` models the JSON field named `prefix`. -/
structure BackendCfg where
  url : Option String
  pfx : Option String
deriving DecidableEq

/-- The `frontend` block of a descriptor. -/
structure FrontendCfg where
  entry : Option String
  activeRule : Option String
deriving DecidableEq

/-- A parsed `module.json`.  Nothing in `scanModules` validates fields, so
every field is optional: `JSON.parse` succeeds on any well-formed JSON. -/
structure Descriptor where
  name : Option String
  displayName : Option String
  version : Option String
  mtype : Option String
  description : Option String
  enabled : Option Bool
  backend : Option BackendCfg
  frontend : Option FrontendCfg
deriving DecidableEq

/-- A module record as cached by the registry: the parsed descriptor plus the
fields `scanModules` adds (`path`, `hasBackend`, `hasFrontend`). -/
structure ModuleRecord where
  desc : Descriptor
  path : String
  hasBackend : Bool
  hasFrontend : Bool
deriving DecidableEq

/-- One immediate entry of the modules directory, as seen by `scanModules`:
its name, whether it is a directory, the state of its `module.json`
(`none` = file absent; `some none` = present but `JSON.parse` throws;
`some (some d)` = parses to `d`), and the backend/frontend dir probes. -/
structure DirEntry where
  entryName : String
  isDir : Bool
  moduleJson : Option (Option Descriptor)
  hasBackendDir : Bool
  hasFrontendDir : Bool
deriving DecidableEq

/-- A diagnostic emitted by the scanner: the `console.error` on a parse
failure, tagged with the directory entry's name. -/
inductive Diag where
  | descriptorParseError (entryName : String)
deriving DecidableEq

/-- `entry.name.startsWith('module-')`, computed on the character list. -/
def startsWithModule (s : String) : Bool :=
  List.isPrefixOf "module-".data s.data

/-- The record `scanModules` pushes for one directory entry, when it pushes
one: the entry must be a directory named `module-…` whose `module.json`
exists and parses.  Mirrors lines 47–63 of `server.js`. -/
def entryRecord (modulesDir : String) (e : DirEntry) : Option ModuleRecord :=
  if e.isDir && startsWithModule e.entryName then
    match e.moduleJson with
    | some (some d) =>
        some { desc := d
               path := modulesDir ++ "/" ++ e.entryName
               hasBackend := e.hasBackendDir
               hasFrontend := e.hasFrontendDir }
    | _ => none
  else none

/-- True when `scanModules` hits the inner `catch` for this entry: a
`module-…` directory whose `module.json` exists but does not parse. -/
def entryMalformed (e : DirEntry) : Bool :=
  e.isDir && startsWithModule e.entryName &&
    (match e.moduleJson with
     | some none => true
     | _ => false)

/-- The loop body of `scanModules` over the directory listing: parseable
entries are pushed in order, parse failures emit a diagnostic, everything
else is skipped silently. -/
def scanEntries (modulesDir : String) : List DirEntry → List ModuleRecord × List Diag
  | [] => ([], [])
  | e :: es =>
      let rest := scanEntries modulesDir es
      match entryRecord modulesDir e with
      | some r => (r :: rest.1, rest.2)
      | none =>
          if entryMalformed e then
            (rest.1, Diag.descriptorParseError e.entryName :: rest.2)
          else rest

/-- `scanModules` including its outer `try`: `readdirSync` either yields a
listing or throws; the outer `catch` logs and returns the `modules` list
accumulated so far, which at that point is still empty. -/
def scanModules (modulesDir : String) (readdir : Option (List DirEntry)) :
    List ModuleRecord × List Diag :=
  match readdir with
  | some es => scanEntries modulesDir es
  | none => ([], [])

/-- The JSON body of `POST /api/refresh`'s response. -/
structure RefreshResp where
  success : Bool
  count : Nat
deriving DecidableEq

/-- The `POST /api/refresh` handler: reassigns `cachedModules` to a fresh
`scanModules()` result and always answers `success: true` with the new
count.  Returns the new cache and the response. -/
def apiRefresh (modulesDir : String) (prevCache : List ModuleRecord)
    (readdir : Option (List DirEntry)) : List ModuleRecord × RefreshResp :=
  let mods := (scanModules modulesDir readdir).1
  (mods, { success := true, count := mods.length })

/-! ## Registry query service (`GET /api/modules`, `GET /api/modules/:name`,
`GET /api/stats`) -/

/-- `toLowerCase` of a JavaScript string, as a character list. -/
def jsLower (s : String) : List Char := s.data.map Char.toLower

/-- JavaScript `String.prototype.includes`: `needle` occurs as a contiguous
subsequence of the character list. -/
def subSeq (needle : List Char) : List Char → Bool
  | [] => needle.isEmpty
  | c :: cs => needle.isPrefixOf (c :: cs) || subSeq needle cs

/-- Case-insensitive substring test, `hay.toLowerCase().includes(needle.toLowerCase())`. -/
def containsCI (hay needle : String) : Bool := subSeq (jsLower needle) (jsLower hay)

/-- The search predicate of `GET /api/modules`, with JavaScript evaluation
order: `m.name.toLowerCase()` throws a `TypeError` when `name` is absent
(`undefined`), likewise `displayName`; `description` is truthiness-guarded.
`searchLower` is the already-lowercased search text. -/
def searchPredE (searchLower : List Char) (m : ModuleRecord) : Except String Bool :=
  match m.desc.name with
  | none => .error "TypeError"
  | some n =>
      if subSeq searchLower (jsLower n) then .ok true
      else
        match m.desc.displayName with
        | none => .error "TypeError"
        | some dn =>
            if subSeq searchLower (jsLower dn) then .ok true
            else
              match m.desc.description with
              | none => .ok false
              | some d => .ok (subSeq searchLower (jsLower d))

/-- `Array.prototype.filter` with a predicate that may throw: elements are
tested left to right and the first exception aborts the whole call. -/
def filterE {α : Type} (p : α → Except String Bool) : List α → Except String (List α)
  | [] => .ok []
  | a :: as =>
      match p a with
      | .error e => .error e
      | .ok b =>
          match filterE p as with
          | .error e => .error e
          | .ok rest => .ok (if b then a :: rest else rest)

/-- The `type` stage of `GET /api/modules`: applied only when the query
parameter is truthy (present and non-empty), strict equality `m.type === type`. -/
def typeFilter (q : Option String) (ms : List ModuleRecord) : List ModuleRecord :=
  match q with
  | some t => if t.isEmpty then ms else ms.filter (fun m => m.desc.mtype == some t)
  | none => ms

/-- The `enabled` stage: applied whenever the parameter is present
(`enabled !== undefined`), keeping records with `m.enabled === (enabled === 'true')`. -/
def enabledFilter (q : Option String) (ms : List ModuleRecord) : List ModuleRecord :=
  match q with
  | some s => ms.filter (fun m => m.desc.enabled == some (s == "true"))
  | none => ms

/-- The `search` stage: applied only when the parameter is truthy; may throw
(surfacing as a 500) when a surviving record lacks `name` or `displayName`. -/
def searchFilter (q : Option String) (ms : List ModuleRecord) :
    Except String (List ModuleRecord) :=
  match q with
  | some s => if s.isEmpty then .ok ms else filterE (searchPredE (jsLower s)) ms
  | none => .ok ms

/-- The `GET /api/modules` handler: type filter, then enabled filter, then
search filter over a copy of the cached snapshot.  `.ok` is the JSON array
answered, `.error` the synchronous throw Express turns into a 500. -/
def getModules (qType qEnabled qSearch : Option String) (snap : List ModuleRecord) :
    Except String (List ModuleRecord) :=
  searchFilter qSearch (enabledFilter qEnabled (typeFilter qType snap))

/-- The `GET /api/modules/:name` lookup: `cachedModules.find(m => m.name === name)`;
`none` is answered as a 404. -/
def getModuleByName (n : String) (snap : List ModuleRecord) : Option ModuleRecord :=
  snap.find? (fun m => m.desc.name == some n)

/-- JavaScript truthiness of an optional boolean field (`undefined` is falsy). -/
def jsBoolTruthy : Option Bool → Bool
  | some true => true
  | _ => false

/-- The scalar counts of the `GET /api/stats` response. -/
structure Stats where
  total : Nat
  enabled : Nat
  disabled : Nat
  withBackend : Nat
  withFrontend : Nat
deriving DecidableEq

/-- The `GET /api/stats` handler's scalar counts. -/
def statsOf (snap : List ModuleRecord) : Stats :=
  { total := snap.length
    enabled := (snap.filter (fun m => jsBoolTruthy m.desc.enabled)).length
    disabled := (snap.filter (fun m => !jsBoolTruthy m.desc.enabled)).length
    withBackend := (snap.filter (fun m => m.hasBackend)).length
    withFrontend := (snap.filter (fun m => m.hasFrontend)).length }

/-- The key a record contributes to `stats.byType`: `m.type || 'unknown'`. -/
def jsTypeKey (m : ModuleRecord) : String :=
  match m.desc.mtype with
  | some t => if t.isEmpty then "unknown" else t
  | none => "unknown"

/-- `stats.byType[t]` of the `GET /api/stats` response. -/
def byTypeCount (snap : List ModuleRecord) (t : String) : Nat :=
  (snap.filter (fun m => jsTypeKey m == t)).length

/-! ## API gateway (`src/api-gateway/index.js`) -/

/-- A module object as the gateway receives it from `GET /api/modules`
(only the fields the gateway reads). -/
structure GwModule where
  name : Option String
  backend : Option BackendCfg
deriving DecidableEq

/-- JavaScript string interpolation of a possibly-`undefined` value. -/
def jsShow : Option String → String
  | some v => v
  | none => "undefined"

/-- One registered proxy rule: the mounted path (`pfx` models the source's
`prefix`), the proxy target base URL, and the owning module's name. -/
structure Route where
  pfx : String
  target : String
  moduleName : String
deriving DecidableEq

/-- The body of `setupDynamicRoutes`'s `forEach` for one module: a proxy is
registered iff `module.backend && module.backend.url` is truthy; the mounted
path is `module.backend.prefix || '/api/' + module.name`. -/
def moduleRoute (m : GwModule) : Option Route :=
  match m.backend with
  | some b =>
      match b.url with
      | some url =>
          if url.isEmpty then none
          else
            let p :=
              match b.pfx with
              | some p0 => if p0.isEmpty then "/api/" ++ jsShow m.name else p0
              | none => "/api/" ++ jsShow m.name
            some { pfx := p, target := url, moduleName := jsShow m.name }
      | none => none
  | none => none

/-- The route table `setupDynamicRoutes` registers, in `forEach` order. -/
def buildRoutes (ms : List GwModule) : List Route :=
  ms.filterMap moduleRoute

/-- Express mount matching for `app.use(prefix, …)`: the request path equals
the mount path or continues it at a `/` segment boundary. -/
def mountMatches (reqPath pfx : String) : Bool :=
  reqPath == pfx || List.isPrefixOf (pfx ++ "/").data reqPath.data

/-- Whether one module's backend would answer a request or the proxy would
hit a transport error (`onError` with the given message). -/
inductive BackendState where
  | up
  | down (errMsg : String)
deriving DecidableEq

/-- A response of the gateway: the `/health` payload, the
`/api/gateway/status` payload, a proxied forward, the 502 body of the
proxy's `onError` (the failing module's name plus `err.message`), or the
404 body.  `forwarded` and `badGateway` are what the proxy middlewares
would produce; they are needed to state what the spec predicts. -/
inductive GwResponse where
  | health
  | gatewayStatus
  | forwarded (targetUrl : String) (moduleName : String)
  | badGateway (moduleName : String) (details : String)
  | notFound
deriving DecidableEq

/-- One request through the gateway, dispatched along Express's middleware
stack in registration order.  The `/health` handler (line 130), the
`/api/gateway/status` handler (line 141) and the catch-all 404 handler
(line 153) are registered synchronously at module load; the proxy
middlewares are registered by `setupDynamicRoutes` only after its awaited
`fetchModulesFromMarket` resolves, i.e. after module evaluation, so they
come after the catch-all in the stack.  The catch-all matches every path
and ends the response, so the proxies are unreachable: every request other
than the two fixed endpoints is answered 404, whatever the route table and
backend states. -/
def handleRequest (routes : List Route) (backends : String → BackendState)
    (reqPath : String) : GwResponse :=
  if reqPath == "/health" then .health
  else if reqPath == "/api/gateway/status" then .gatewayStatus
  else .notFound

/-- Longest-prefix-match resolution, as the spec describes it (ties keep the
earlier route).  Spec-side definition, to compare with what the program
answers. -/
def longestPrefixRoute (routes : List Route) (reqPath : String) : Option Route :=
  (routes.filter (fun r => mountMatches reqPath r.pfx)).foldl
    (fun best r =>
      match best with
      | none => some r
      | some b => if b.pfx.length < r.pfx.length then some r else some b) none

/-- The hardcoded fallback module list `getDefaultModules`. -/
def getDefaultModules : List GwModule :=
  [ { name := some "module-market"
      backend := some { url := some "http://localhost:3001", pfx := some "/api/module-market" } },
    { name := some "module-user"
      backend := some { url := some "http://localhost:3002", pfx := some "/api/user" } } ]

/-- `fetchModulesFromMarket`: the discovery fetch either yields a module list
or throws (timeout, connection refused), in which case the `catch` returns
the defaults. -/
def fetchModulesFromMarket (fetched : Option (List GwModule)) : List GwModule :=
  match fetched with
  | some ms => ms
  | none => getDefaultModules

/-- `setupDynamicRoutes` at gateway startup: build the table from whatever
`fetchModulesFromMarket` returned.  The proxies it registers for this table
end up behind the earlier-registered 404 catch-all (see `handleRequest`). -/
def setupDynamicRoutes (fetched : Option (List GwModule)) : List Route :=
  buildRoutes (fetchModulesFromMarket fetched)

/-- The `setInterval` callback in `startGateway` (lines 193–197): its body
only logs — it performs no fetch, no build, and registers nothing, so the
active route table after a tick is the route table before it. -/
def periodicRefreshTick (routes : List Route) : List Route := routes

/-! ## Spec-side definitions, written from the claims' words, for comparison
with the source-side functions above -/

/-- An optional string field, `""` when absent (used only under hypotheses
that make the field present). -/
def jsStr : Option String → String
  | some v => v
  | none => ""

/-- Claim side of C7: the `type` criterion as a single predicate. -/
def specTypeOk (q : Option String) (m : ModuleRecord) : Bool :=
  match q with
  | some t => if t.isEmpty then true else m.desc.mtype == some t
  | none => true

/-- Claim side of C7: the `enabled` criterion as a single predicate. -/
def specEnabledOk (q : Option String) (m : ModuleRecord) : Bool :=
  match q with
  | some s => m.desc.enabled == some (s == "true")
  | none => true

/-- Claim side of C7: case-insensitive substring match against `name`,
`displayName` and `description`, any field sufficient. -/
def specSearchOk (q : Option String) (m : ModuleRecord) : Bool :=
  match q with
  | some s =>
      if s.isEmpty then true
      else
        containsCI (jsStr m.desc.name) s || containsCI (jsStr m.desc.displayName) s ||
          (match m.desc.description with
           | some d => containsCI d s
           | none => false)
  | none => true

/-- Claim side of C3: a descriptor counted as valid by the claim — parses
and carries the required fields `name` and `displayName`. -/
def claimValidEntry (e : DirEntry) : Bool :=
  e.isDir && startsWithModule e.entryName &&
    (match e.moduleJson with
     | some (some d) => d.name.isSome && d.displayName.isSome
     | _ => false)

/-- Claim side of C3: a descriptor counted as invalid by the claim —
present but malformed, or missing a required field. -/
def claimInvalidEntry (e : DirEntry) : Bool :=
  e.isDir && startsWithModule e.entryName &&
    (match e.moduleJson with
     | some none => true
     | some (some d) => !(d.name.isSome && d.displayName.isSome)
     | none => false)

/-- Claim side of C8: the module declares a backend with a URL
(a non-empty URL string, which is what the gateway's truthiness test keeps). -/
def hasBackendUrl (m : GwModule) : Bool :=
  match m.backend with
  | some b =>
      match b.url with
      | some u => !u.isEmpty
      | none => false
  | none => false

/-- Claim side of C8: the route such a module yields — `backend.prefix` when
given (non-empty), else `/api/` plus the module name, mapped to the backend
base URL. -/
def specRoute (m : GwModule) : Route :=
  { pfx :=
      match m.backend with
      | some b =>
          match b.pfx with
          | some p => if p.isEmpty then "/api/" ++ jsShow m.name else p
          | none => "/api/" ++ jsShow m.name
      | none => "/api/" ++ jsShow m.name
    target :=
      match m.backend with
      | some b => jsStr b.url
      | none => ""
    moduleName := jsShow m.name }

/-! ## Concrete fixtures for witnesses and counterexamples -/

/-- A descriptor with every optional field absent (the parse of `{}`). -/
def emptyDesc : Descriptor :=
  { name := none, displayName := none, version := none, mtype := none
    description := none, enabled := none, backend := none, frontend := none }

/-- The registry entry of the claim's route-resolution example. -/
def moduleXEntry : GwModule :=
  { name := some "module-x"
    backend := some { url := some "http://x:9000", pfx := some "/api/x" } }

/-- A second registered module, for isolation checks. -/
def moduleYEntry : GwModule :=
  { name := some "module-y"
    backend := some { url := some "http://y:9100", pfx := some "/api/y" } }

/-- A cached record, to populate a registry snapshot. -/
def demoRecord : ModuleRecord :=
  { desc := { emptyDesc with
              name := some "module-user"
              displayName := some "User Module"
              enabled := some true }
    path := "/modules/module-user", hasBackend := true, hasFrontend := true }

/-- A `module-…` directory whose `module.json` parses to `{}`: syntactically
fine, but missing the required `name` and `displayName`. -/
def badEntry : DirEntry :=
  { entryName := "module-bad", isDir := true, moduleJson := some (some emptyDesc)
    hasBackendDir := false, hasFrontendDir := false }

/-- A cached record whose descriptor omits the `enabled` field. -/
def noEnabledRec : ModuleRecord :=
  { desc := { emptyDesc with name := some "module-plain", displayName := some "Plain" }
    path := "/modules/module-plain", hasBackend := false, hasFrontend := false }

/-- First of two records sharing the name `dup`. -/
def dupA : ModuleRecord :=
  { desc := { emptyDesc with name := some "dup", displayName := some "First" }
    path := "/modules/module-dup-a", hasBackend := false, hasFrontend := false }

/-- Second of two records sharing the name `dup`. -/
def dupB : ModuleRecord :=
  { desc := { emptyDesc with name := some "dup", displayName := some "Second" }
    path := "/modules/module-dup-b", hasBackend := true, hasFrontend := false }

/-- Directory entries scanning to `dupA` and `dupB`. -/
def dupEntryA : DirEntry :=
  { entryName := "module-dup-a", isDir := true
    moduleJson := some (some dupA.desc), hasBackendDir := false, hasFrontendDir := false }

def dupEntryB : DirEntry :=
  { entryName := "module-dup-b", isDir := true
    moduleJson := some (some dupB.desc), hasBackendDir := true, hasFrontendDir := false }

/-- A searchable record for the query-filter witness. -/
def marketRec : ModuleRecord :=
  { desc := { emptyDesc with
              name := some "module-market"
              displayName := some "Module Market"
              mtype := some "core"
              description := some "Registry and discovery"
              enabled := some true }
    path := "/modules/module-market", hasBackend := true, hasFrontend := true }

/-- The table the gateway builds for `module-x` and `module-y`. -/
def twoRoutes : List Route := buildRoutes [moduleXEntry, moduleYEntry]

/-- Backend states where `module-x` is unreachable and every other backend
answers. -/
def bkXDown : String → BackendState :=
  fun n => if n == "module-x" then BackendState.down "connect ECONNREFUSED" else BackendState.up

/-! ## Helper lemmas -/

theorem scanEntries_records (modulesDir : String) (es : List DirEntry) :
    (scanEntries modulesDir es).1 = es.filterMap (entryRecord modulesDir) := by
  induction es with
  | nil => rfl
  | cons e es ih =>
      simp only [scanEntries, List.filterMap_cons]
      cases h : entryRecord modulesDir e with
      | some r => simp [h, ih]
      | none =>
          by_cases hm : entryMalformed e <;> simp [h, hm, ih]

theorem entryRecord_some_not_malformed (modulesDir : String) (e : DirEntry)
    (r : ModuleRecord) (h : entryRecord modulesDir e = some r) :
    entryMalformed e = false := by
  unfold entryRecord at h
  by_cases hc : (e.isDir && startsWithModule e.entryName) = true
  · rw [if_pos hc] at h
    unfold entryMalformed
    cases hmj : e.moduleJson with
    | none => rw [hmj] at h; exact absurd h (by simp)
    | some o =>
        cases o with
        | none => rw [hmj] at h; exact absurd h (by simp)
        | some d => simp [hmj, hc]
  · rw [if_neg hc] at h
    exact absurd h (by simp)

theorem scanEntries_diags (modulesDir : String) (es : List DirEntry) :
    (scanEntries modulesDir es).2 =
      (es.filter entryMalformed).map (fun e => Diag.descriptorParseError e.entryName) := by
  induction es with
  | nil => rfl
  | cons e es ih =>
      simp only [scanEntries, List.filter_cons]
      cases h : entryRecord modulesDir e with
      | some r =>
          rw [entryRecord_some_not_malformed modulesDir e r h]
          simp [ih]
      | none =>
          by_cases hm : entryMalformed e <;> simp [hm, ih]

theorem length_filterMap_eq_length_filter {α β : Type} (f : α → Option β) (l : List α) :
    (l.filterMap f).length = (l.filter (fun a => (f a).isSome)).length := by
  induction l with
  | nil => rfl
  | cons a l ih =>
      rw [List.filterMap_cons, List.filter_cons]
      cases h : f a with
      | some b => simp [h, ih]
      | none => simp [h, ih]

theorem find?_first {α : Type} (p : α → Bool) (pre : List α) (r : α) (post : List α)
    (hpre : ∀ x ∈ pre, p x = false) (hr : p r = true) :
    (pre ++ r :: post).find? p = some r := by
  induction pre with
  | nil => simp [List.find?_cons, hr]
  | cons a l ih =>
      have ha := hpre a (List.mem_cons_self a l)
      simp only [List.cons_append, List.find?_cons, ha]
      exact ih (fun x hx => hpre x (List.mem_cons_of_mem a hx))

theorem typeFilter_eq (q : Option String) (ms : List ModuleRecord) :
    typeFilter q ms = ms.filter (fun m => specTypeOk q m) := by
  cases q with
  | none => simp [typeFilter, specTypeOk]
  | some t =>
      by_cases ht : t.isEmpty <;> simp [typeFilter, specTypeOk, ht]

theorem enabledFilter_eq (q : Option String) (ms : List ModuleRecord) :
    enabledFilter q ms = ms.filter (fun m => specEnabledOk q m) := by
  cases q with
  | none => simp [enabledFilter, specEnabledOk]
  | some s => simp [enabledFilter, specEnabledOk]

theorem searchPredE_ok (s : String) (m : ModuleRecord)
    (h1 : m.desc.name.isSome) (h2 : m.desc.displayName.isSome) :
    searchPredE (jsLower s) m =
      Except.ok (containsCI (jsStr m.desc.name) s || containsCI (jsStr m.desc.displayName) s ||
        (match m.desc.description with
         | some d => containsCI d s
         | none => false)) := by
  rcases hn : m.desc.name with _ | n
  · rw [hn] at h1; exact absurd h1 (by simp)
  rcases hdn : m.desc.displayName with _ | dn
  · rw [hdn] at h2; exact absurd h2 (by simp)
  rw [searchPredE, hn, hdn]
  by_cases c1 : subSeq (jsLower s) (jsLower n)
  · simp [c1, containsCI, jsStr]
  · by_cases c2 : subSeq (jsLower s) (jsLower dn)
    · simp [c1, c2, containsCI, jsStr]
    · rcases hd : m.desc.description with _ | d <;>
        simp [c1, c2, hd, containsCI, jsStr]

theorem filterE_eq_filter {α : Type} (p : α → Except String Bool) (pb : α → Bool)
    (l : List α) (h : ∀ a ∈ l, p a = Except.ok (pb a)) :
    filterE p l = Except.ok (l.filter pb) := by
  induction l with
  | nil => rfl
  | cons a l ih =>
      rw [filterE, h a (List.mem_cons_self a l),
        ih (fun b hb => h b (List.mem_cons_of_mem a hb))]
      cases hpb : pb a <;> simp [List.filter_cons, hpb]

theorem searchFilter_eq (q : Option String) (ms : List ModuleRecord)
    (h : ∀ m ∈ ms, m.desc.name.isSome ∧ m.desc.displayName.isSome) :
    searchFilter q ms = Except.ok (ms.filter (fun m => specSearchOk q m)) := by
  cases q with
  | none => simp [searchFilter, specSearchOk]
  | some s =>
      by_cases hs : s.isEmpty
      · simp [searchFilter, specSearchOk, hs]
      · rw [searchFilter, if_neg hs]
        rw [filterE_eq_filter (searchPredE (jsLower s)) (fun m => specSearchOk (some s) m) ms ?_]
        intro m hm
        rw [searchPredE_ok s m (h m hm).1 (h m hm).2]
        simp [specSearchOk, hs]

theorem filter_fuse2 {α : Type} (p q : α → Bool) (l : List α) :
    (l.filter p).filter q = l.filter (fun a => p a && q a) := by
  rw [List.filter_filter]
  exact List.filter_congr (fun a _ => by cases p a <;> cases q a <;> rfl)

theorem filter_fuse3 {α : Type} (p1 p2 p3 : α → Bool) (l : List α) :
    ((l.filter p1).filter p2).filter p3 =
      l.filter (fun a => (p1 a && p2 a) && p3 a) := by
  rw [filter_fuse2, filter_fuse2]
  exact List.filter_congr (fun a _ => by cases p1 a <;> cases p2 a <;> cases p3 a <;> rfl)

/-! ## Claims -/

/-- C1 counterexample: at the claim's own example — the table built from
the registry entry `module-x` with url `http://x:9000` and prefix `/api/x`,
backend up — the route table does contain a (longest-prefix) match for
`/api/x/items`, yet the gateway answers 404 rather than forwarding
`http://x:9000/items`: the 404 catch-all is registered at module load,
before the proxy middlewares, so no request is ever forwarded. -/
theorem c1_forwarding_unreachable :
    handleRequest (buildRoutes [moduleXEntry]) (fun _ => BackendState.up) "/api/x/items" =
      GwResponse.notFound
    ∧ longestPrefixRoute (buildRoutes [moduleXEntry]) "/api/x/items" =
        some { pfx := "/api/x", target := "http://x:9000", moduleName := "module-x" }
    ∧ GwResponse.notFound ≠ GwResponse.forwarded "http://x:9000/items" "module-x" := by
  refine ⟨by decide, by decide, by decide⟩

/-- C1 (amended): no inbound request is ever matched against the active
RouteTable.  The 404 catch-all is registered synchronously at module load,
before `setupDynamicRoutes` (which registers the proxy middlewares only
after its awaited fetch), so apart from the fixed `/health` and
`/api/gateway/status` endpoints every request — whatever the route table
and backend states — is answered 404 Not Found, and no request is
forwarded. -/
theorem c1_route_resolution (routes : List Route) (backends : String → BackendState)
    (reqPath : String) (h1 : reqPath ≠ "/health") (h2 : reqPath ≠ "/api/gateway/status") :
    handleRequest routes backends reqPath = GwResponse.notFound
    ∧ ∀ t mn : String, handleRequest routes backends reqPath ≠ GwResponse.forwarded t mn := by
  have hb1 : (reqPath == "/health") = false := by
    cases hc : reqPath == "/health"
    · rfl
    · exact absurd (eq_of_beq hc) h1
  have hb2 : (reqPath == "/api/gateway/status") = false := by
    cases hc : reqPath == "/api/gateway/status"
    · rfl
    · exact absurd (eq_of_beq hc) h2
  have hmain : handleRequest routes backends reqPath = GwResponse.notFound := by
    unfold handleRequest
    rw [hb1, hb2]
    simp
  exact ⟨hmain, fun t mn => by simp [hmain]⟩

/-- C1 witness: with the claim's example entry registered and its backend
up, the gateway still answers 404 to `/api/x/items`. -/
theorem c1_route_resolution_witness :
    handleRequest (buildRoutes [moduleXEntry]) (fun _ => BackendState.up) "/api/x/items" =
      GwResponse.notFound := by
  exact (c1_route_resolution (buildRoutes [moduleXEntry]) (fun _ => BackendState.up)
    "/api/x/items" (by decide) (by decide)).1

/-- C2 counterexample: with one cached record and a failing directory scan
(`readdirSync` throws), `POST /api/refresh` replaces the cache with the empty
list — not the previous snapshot — and still reports `success: true` with
count 0, instead of reporting the discovery error. -/
theorem c2_failed_refresh_overwrites :
    apiRefresh "/modules" [demoRecord] none = ([], { success := true, count := 0 })
    ∧ ([] : List ModuleRecord) ≠ [demoRecord] :=
  ⟨rfl, by decide⟩

/-- C2 (amended): `POST /api/refresh` unconditionally replaces the active
snapshot with the fresh scan result and reports success with its count,
whatever the previous snapshot was; when the scan of the modules directory
throws, that result is the empty list, so a failed refresh discards the
previously active snapshot instead of preserving it, and no error is
reported. -/
theorem c2_refresh_always_replaces (modulesDir : String) (prevCache : List ModuleRecord)
    (readdir : Option (List DirEntry)) :
    apiRefresh modulesDir prevCache readdir =
      ((scanModules modulesDir readdir).1,
        { success := true, count := (scanModules modulesDir readdir).1.length })
    ∧ (apiRefresh modulesDir prevCache none).1 = [] :=
  ⟨rfl, rfl⟩

/-- C3 counterexample: a `module-…` directory whose `module.json` parses to
`{}` is invalid per the claim (missing required `name`/`displayName`), so
with this one-entry descriptor set N = 0 and M = 1; yet the scan returns one
record and zero diagnostics, not zero records and one diagnostic. -/
theorem c3_missing_fields_not_diagnosed :
    (List.filter claimValidEntry [badEntry]).length = 0
    ∧ (List.filter claimInvalidEntry [badEntry]).length = 1
    ∧ (scanEntries "/modules" [badEntry]).1.length = 1
    ∧ (scanEntries "/modules" [badEntry]).2.length = 0 := by
  refine ⟨by decide, by decide, by decide, by decide⟩

/-- C3 (amended): only syntactically malformed descriptors are excluded and
diagnosed.  The scan returns exactly the parseable descriptors of `module-…`
directories, in order — so an invalid descriptor never drops an unrelated
valid one and the scan as a whole never fails — and exactly one
`DescriptorParseError` diagnostic per malformed descriptor; descriptors
missing `name`/`displayName` are not validated and become records. -/
theorem c3_scan_isolation (modulesDir : String) (es : List DirEntry) :
    (scanEntries modulesDir es).1 = es.filterMap (entryRecord modulesDir)
    ∧ (scanEntries modulesDir es).1.length =
        (es.filter (fun e => (entryRecord modulesDir e).isSome)).length
    ∧ (scanEntries modulesDir es).2 =
        (es.filter entryMalformed).map (fun e => Diag.descriptorParseError e.entryName) := by
  refine ⟨scanEntries_records modulesDir es, ?_, scanEntries_diags modulesDir es⟩
  rw [scanEntries_records modulesDir es]
  exact length_filterMap_eq_length_filter (entryRecord modulesDir) es

/-- C4: the claimed 502 response is unreachable.  With `module-x` and
`module-y` registered and `module-x`'s backend refusing connections, a
request to `/api/x/items` is answered by the 404 catch-all — the proxy
middleware carrying the `onError` 502-with-module-name path sits behind it
and never runs — so the gateway never answers the claimed
`502 Bad Gateway` naming the module and the error.  (Requests to other
prefixes are equally answered 404, not proxied.) -/
theorem c4_down_backend_gets_404 :
    handleRequest twoRoutes bkXDown "/api/x/items" = GwResponse.notFound
    ∧ GwResponse.notFound ≠ GwResponse.badGateway "module-x" "connect ECONNREFUSED"
    ∧ handleRequest twoRoutes bkXDown "/api/y/list" = GwResponse.notFound := by
  refine ⟨by decide, by decide, by decide⟩

/-- C5: on a failed discovery fetch the gateway does build its table from
the hardcoded defaults (`module-market` at `/api/module-market`,
`module-user` at `/api/user`), but it does not remain serviceable: the
default-route proxies are registered behind the module-load-time 404
catch-all, so a request to a default route is answered 404, not forwarded. -/
theorem c5_default_routes_unreachable :
    setupDynamicRoutes none =
      [ { pfx := "/api/module-market", target := "http://localhost:3001"
          moduleName := "module-market" },
        { pfx := "/api/user", target := "http://localhost:3002"
          moduleName := "module-user" } ]
    ∧ handleRequest (setupDynamicRoutes none) (fun _ => BackendState.up) "/api/user/list" =
        GwResponse.notFound
    ∧ GwResponse.notFound ≠ GwResponse.forwarded "http://localhost:3002/list" "module-user" := by
  refine ⟨by decide, by decide, by decide⟩

/-- C6: the gateway's periodic "refresh" (the `setInterval` callback) is a
stub that only logs: every tick leaves the active route table exactly as it
was, performing no fetch, no build and no swap — even when the registry
would now build a different table (here: a fresh successful build from a
changed module set differs from the active default table, yet the tick does
not install it).  This contradicts the specified fetch-build-swap semantics. -/
theorem c6_periodic_refresh_noop :
    (∀ routes : List Route, periodicRefreshTick routes = routes)
    ∧ periodicRefreshTick (setupDynamicRoutes none) = setupDynamicRoutes none
    ∧ setupDynamicRoutes none ≠ buildRoutes [moduleXEntry] := by
  exact ⟨fun _ => rfl, rfl, by decide⟩

/-- C7: for a snapshot whose records carry the required `name` and
`displayName` fields, `GET /api/modules` returns exactly the records passing
the conjunction of: exact `type` match, exact `enabled` match, and
case-insensitive substring search against `name`, `displayName` and
`description` with any one field sufficient — in snapshot order. -/
theorem c7_query_filtering (snap : List ModuleRecord) (qType qEnabled qSearch : Option String)
    (h : ∀ m ∈ snap, m.desc.name.isSome ∧ m.desc.displayName.isSome) :
    getModules qType qEnabled qSearch snap =
      Except.ok (snap.filter (fun m =>
        (specTypeOk qType m && specEnabledOk qEnabled m) && specSearchOk qSearch m)) := by
  have hms : ∀ m ∈ (snap.filter (fun m => specTypeOk qType m)).filter
      (fun m => specEnabledOk qEnabled m), m.desc.name.isSome ∧ m.desc.displayName.isSome :=
    fun m hm => h m (List.mem_of_mem_filter (List.mem_of_mem_filter hm))
  rw [getModules, typeFilter_eq, enabledFilter_eq, searchFilter_eq _ _ hms, filter_fuse3]

/-- C7 witness: of two cached records, searching `market` with
`type=core&enabled=true` keeps exactly the market record. -/
theorem c7_query_filtering_witness :
    getModules (some "core") (some "true") (some "market") [marketRec, demoRecord] =
      Except.ok [marketRec] := by
  have h := c7_query_filtering [marketRec, demoRecord]
    (some "core") (some "true") (some "market") (by decide)
  rw [h]
  decide

/-- C8 helper: the `forEach` body registers a proxy exactly for modules whose
`backend.url` is a given non-empty string, and the route it registers is the
spec-side `specRoute`. -/
theorem moduleRoute_eq (m : GwModule) :
    moduleRoute m = if hasBackendUrl m then some (specRoute m) else none := by
  rcases m with ⟨n, b⟩
  cases b with
  | none => rfl
  | some bc =>
      rcases bc with ⟨u, p⟩
      cases u with
      | none => rfl
      | some url =>
          by_cases hu : url.isEmpty
          · cases p <;> simp [moduleRoute, hasBackendUrl, hu]
          · cases p <;> simp [moduleRoute, hasBackendUrl, specRoute, jsStr, hu]

/-- C8: `setupDynamicRoutes` derives a route for exactly the modules with a
backend URL (a non-empty `backend.url` string — the code's truthiness test),
in module order: the prefix is `backend.prefix` when given (non-empty), else
`/api/` plus the module name, mapped to the backend base URL.  Building is a
pure function of the snapshot (the embedding performs no I/O). -/
theorem c8_route_table_building (ms : List GwModule) :
    buildRoutes ms = (ms.filter hasBackendUrl).map specRoute := by
  induction ms with
  | nil => rfl
  | cons m ms ih =>
      rw [buildRoutes, List.filterMap_cons, moduleRoute_eq, List.filter_cons]
      by_cases hm : hasBackendUrl m
      · simp only [hm, if_true, List.map_cons]
        rw [← buildRoutes, ih]
      · simp only [hm, Bool.false_eq_true, if_false]
        rw [← buildRoutes, ih]

/-- C9 counterexample: a record whose descriptor omits `enabled` is counted
in the `disabled` aggregate of `GET /api/stats` (and not in `enabled`), and
`GET /api/modules?enabled=true` excludes it — the omitted field is not
defaulted to true anywhere. -/
theorem c9_omitted_enabled_not_true :
    noEnabledRec.desc.enabled = none
    ∧ (statsOf [noEnabledRec]).enabled = 0
    ∧ (statsOf [noEnabledRec]).disabled = 1
    ∧ getModules none (some "true") none [noEnabledRec] = Except.ok [] := by
  refine ⟨rfl, by decide, by decide, by decide⟩

/-- C9 (amended): a descriptor that omits `enabled` is treated as falsy, not
as true: prepending such a record to any snapshot leaves the `enabled` count
unchanged and raises `disabled` by one, and the record is excluded from both
`GET /api/modules?enabled=true` and `?enabled=false`. -/
theorem c9_omitted_enabled_is_disabled (m : ModuleRecord) (rest : List ModuleRecord)
    (h : m.desc.enabled = none) :
    (statsOf (m :: rest)).enabled = (statsOf rest).enabled
    ∧ (statsOf (m :: rest)).disabled = (statsOf rest).disabled + 1
    ∧ getModules none (some "true") none (m :: rest) = getModules none (some "true") none rest
    ∧ getModules none (some "false") none (m :: rest) =
        getModules none (some "false") none rest := by
  have hj : jsBoolTruthy m.desc.enabled = false := by rw [h]; rfl
  have hb : ∀ x : Bool, (m.desc.enabled == some x) = false := fun x => by rw [h]; rfl
  refine ⟨?_, ?_, ?_, ?_⟩
  · simp [statsOf, List.filter_cons, hj]
  · simp [statsOf, List.filter_cons, hj]
  · simp [getModules, typeFilter, enabledFilter, searchFilter, List.filter_cons, hb]
  · simp [getModules, typeFilter, enabledFilter, searchFilter, List.filter_cons, hb]

/-- C9 witness: the amended statement at the concrete record without
`enabled`, over the empty remaining snapshot. -/
theorem c9_omitted_enabled_is_disabled_witness :
    (statsOf [noEnabledRec]).disabled = 1
    ∧ getModules none (some "false") none [noEnabledRec] = Except.ok [] := by
  have h := c9_omitted_enabled_is_disabled noEnabledRec [] rfl
  refine ⟨?_, ?_⟩
  · rw [h.2.1]
    decide
  · rw [h.2.2.2]
    rfl

/-- C10: with duplicate names in the cached snapshot, `GET /api/modules/:name`
answers the first matching record in scan order, the unfiltered
`GET /api/modules` returns the whole snapshot with every duplicate, and the
scanner keeps one record per parseable entry regardless of name collisions
(the cache never deduplicates). -/
theorem c10_duplicate_names (pre mid post : List ModuleRecord) (a b : ModuleRecord)
    (n : String) (ha : a.desc.name = some n) (hb : b.desc.name = some n)
    (hpre : ∀ m ∈ pre, (m.desc.name == some n) = false) :
    getModuleByName n (pre ++ a :: (mid ++ b :: post)) = some a
    ∧ getModules none none none (pre ++ a :: (mid ++ b :: post)) =
        Except.ok (pre ++ a :: (mid ++ b :: post))
    ∧ ∀ (modulesDir : String) (e1 e2 : DirEntry) (r1 r2 : ModuleRecord),
        entryRecord modulesDir e1 = some r1 → entryRecord modulesDir e2 = some r2 →
        (scanEntries modulesDir [e1, e2]).1 = [r1, r2] := by
  refine ⟨?_, rfl, ?_⟩
  · unfold getModuleByName
    have hxa : (fun m => m.desc.name == some n) a = true := by simp [ha]
    exact find?_first _ pre a (mid ++ b :: post) hpre hxa
  · intro modulesDir e1 e2 r1 r2 h1 h2
    rw [scanEntries_records]
    simp [List.filterMap_cons, h1, h2]

/-- C10 witness: two records named `dup`; the by-name lookup answers the
first, the unfiltered listing returns both, and scanning their two
directory entries yields both records. -/
theorem c10_duplicate_names_witness :
    getModuleByName "dup" [dupA, dupB] = some dupA
    ∧ getModules none none none [dupA, dupB] = Except.ok [dupA, dupB]
    ∧ (scanEntries "/modules" [dupEntryA, dupEntryB]).1 = [dupA, dupB] := by
  have h := c10_duplicate_names [] [] [] dupA dupB "dup" rfl rfl (by simp)
  exact ⟨h.1, h.2.1, h.2.2 "/modules" dupEntryA dupEntryB dupA dupB (by decide) (by decide)⟩
